import Mathlib

/-!
# Verification of the NexusAI plan orchestrator (native runner)

Shallow embedding of `src/brain/orchestrator` — the plan/step data model
(`schema.py`), the native runner (`custom_runner.py`), the tool registry
lookup (`tools.py`) and the public execution facade (`executor.py`).

Modelling conventions:
* Tool callables are opaque external collaborators.  A tool is modelled as a
  function from its invocation index (tools may be stateful across calls) and
  its keyword arguments to an outcome: a returned value, a raised exception
  (message), or exceeding the step time budget.  This mirrors the runner's
  view of a tool: `future.result(timeout=...)` either returns, raises, or
  times out.
* Python `dict` is modelled as an insertion-ordered association list with
  dict-style assignment (replace in place if the key exists, else append),
  matching CPython's guaranteed ordering semantics that the runner's context
  scan (`for key, value in context.items()`) relies on.
* Python `float` confidence is modelled as `Rat`: the validation in
  `schema.py` only compares against the exact constants 0.0 and 1.0, and all
  inputs of interest are exactly representable.
* Timestamps (`started_at`, `finished_at`) and the wall clock are real-time
  effects and are omitted; no claim below depends on them.
* Logging and the `on_update` progress callback are observation-only effects
  and are omitted.
-/

namespace Nexus

/-- An opaque runtime value passed between the runner and tools
(Python `Any`).  `vnone` is Python `None`; `vstr` is a string (the only case
the runner itself inspects, for the markup heuristic); `vother` stands for
any other opaque tool output. -/
inductive Value where
  | vnone : Value
  | vstr (s : String) : Value
  | vother (tag : Nat) : Value
deriving DecidableEq, Repr

/-- Keyword arguments of a tool call: Python `Dict[str, Any]` as an
insertion-ordered association list. -/
abbrev Args := List (String × Value)

/-- Python dict membership test (`k in d`). -/
def hasKey (d : Args) (k : String) : Bool :=
  d.any (fun kv => kv.1 = k)

/-- Python dict assignment `d[k] = v`: replaces the value in place when the
key exists (keeping its position), otherwise appends the new key at the end. -/
def dictSet (d : Args) (k : String) (v : Value) : Args :=
  if hasKey d k then d.map (fun kv => if kv.1 = k then (k, v) else kv)
  else d ++ [(k, v)]

/-- Outcome of one invocation of a tool callable, as seen by
`CustomRunner._execute_step` waiting on `future.result(timeout=...)`:
the call returns a value, raises an exception, or exceeds the time budget. -/
inductive ToolOutcome where
  | ok (output : Value) : ToolOutcome
  | exn (msg : String) : ToolOutcome
  | timeout : ToolOutcome
deriving DecidableEq, Repr

/-- A registered tool callable (external collaborator): given the number of
times this tool has been invoked before (tools may be stateful) and the
keyword arguments, it produces an outcome. -/
abbrev ToolFn := Nat → Args → ToolOutcome

/-- `ToolRegistry._tools` from `tools.py`: mapping from tool name to callable.
The default registry registers `search`, `open`, `extract`, `screenshot`
and `download`; `register` may add more. -/
abbrev ToolRegistry := List (String × ToolFn)

/-- `ToolRegistry.get_tool` (`tools.py` lines 30–34): look the name up,
`none` models the `ValueError` raised for an unknown name. -/
def getTool (reg : ToolRegistry) (name : String) : Option ToolFn :=
  (reg.find? (fun kv => kv.1 = name)).map (fun kv => kv.2)

/-- The closed set of tool names admitted by the `tool` field of `PlanStep`
(`Literal["search", "open", "extract", "screenshot", "download"]`). -/
def allowedTools : List String :=
  ["search", "open", "extract", "screenshot", "download"]

/-- `required_args` table inside `PlanStep.validate_tool_args`
(`schema.py`). -/
def requiredArgs (tool : String) : List String :=
  if tool = "search" then ["query"]
  else if tool = "open" then ["url"]
  else if tool = "extract" then ["selector"]
  else if tool = "screenshot" then ["url"]
  else if tool = "download" then ["url", "filename"]
  else []

/-- `PlanStep` (`schema.py`): one step of a plan.  `confidence` is Python
`Optional[float]` modelled as `Option Rat`; `retry` and `requires_human`
are `Optional` with defaults 0 / False applied at construction, and Python
`None` kept as `none` (both are falsy where the runner tests them). -/
structure PlanStep where
  step_id : Int
  tool : String
  args : Args
  reason : Option String
  confidence : Option Rat
  retry : Option Int
  requires_human : Option Bool
deriving DecidableEq, Repr

/-- Validation performed by the `PlanStep` pydantic model, in field order:
the `tool` literal check, the `validate_tool_args` validator (each required
argument must be present in `args`; the `arg != 'html'` escape in the source
is vacuous since `'html'` is in no required list), the `confidence`
`ge=0.0, le=1.0` bounds and the `retry` `ge=0` bound.  The first failing
check raises (models `pydantic.ValidationError`).  Note that no check
relates `step_id` to the step's position in the plan. -/
def validateStep (s : PlanStep) : Except String PlanStep :=
  if ¬ allowedTools.contains s.tool then
    Except.error ("unexpected value for tool: " ++ s.tool)
  else
    match (requiredArgs s.tool).find? (fun arg => ¬ hasKey s.args arg ∧ arg ≠ "html") with
    | some arg =>
        Except.error ("Missing required argument '" ++ arg ++ "' for tool '" ++ s.tool ++ "'")
    | none =>
        match s.confidence with
        | some c =>
            if c < 0 then Except.error "ensure this value is greater than or equal to 0.0"
            else if 1 < c then Except.error "ensure this value is less than or equal to 1.0"
            else match s.retry with
              | some r =>
                  if r < 0 then Except.error "ensure this value is greater than or equal to 0"
                  else Except.ok s
              | none => Except.ok s
        | none =>
            match s.retry with
            | some r =>
                if r < 0 then Except.error "ensure this value is greater than or equal to 0"
                else Except.ok s
            | none => Except.ok s

/-- `[PlanStep(**step) for step in plan_steps]` (`custom_runner.py` line 57):
validate the steps in order, the first failure aborts the comprehension. -/
def validatePlan : List PlanStep → Except String (List PlanStep)
  | [] => Except.ok []
  | s :: rest =>
      match validateStep s with
      | Except.error e => Except.error e
      | Except.ok v =>
          match validatePlan rest with
          | Except.error e => Except.error e
          | Except.ok vs => Except.ok (v :: vs)

/-- Execution status literals shared by `ExecutionStepResult.status` and
`ExecutionResult.status` (`schema.py`). -/
inductive Status where
  | running : Status
  | ok : Status
  | error : Status
  | paused : Status
deriving DecidableEq, Repr

/-- `ExecutionStepResult` (`schema.py`): mutable record of one step's run.
`output = vnone` plays the role of the Python `None` default. -/
structure ExecutionStepResult where
  step_id : Int
  status : Status
  output : Value
  error_message : Option String
  retry_count : Nat
deriving DecidableEq, Repr

/-- `ExecutionStepResult.mark_finished`: sets the status; the output is
stored only when it `is not None`, and the error message only when truthy
(non-empty). -/
def ExecutionStepResult.mark_finished (r : ExecutionStepResult) (status : Status)
    (output : Value) (error_message : String) : ExecutionStepResult :=
  { r with
    status := status
    output := if output ≠ Value.vnone then output else r.output
    error_message := if error_message ≠ "" then some error_message else r.error_message }

/-- `ExecutionResult` (`schema.py`): the aggregate outcome of a plan run. -/
structure ExecutionResult where
  task_id : String
  status : Status
  steps : List ExecutionStepResult
  error_message : Option String
  session_id : Option String
deriving DecidableEq, Repr

/-- `ExecutionResult.mark_finished`: sets the status; the error message is
stored only when truthy (non-empty). -/
def ExecutionResult.mark_finished (r : ExecutionResult) (status : Status)
    (error_message : String) : ExecutionResult :=
  { r with
    status := status
    error_message := if error_message ≠ "" then some error_message else r.error_message }

/-- The configuration the runner reads (`config.py` /
`CustomRunner.__init__`): the per-step timeout in seconds (used in the
timeout message) and the unused `max_retries` default. -/
structure OrchestratorConfig where
  step_timeout : Nat
  max_retries : Nat
deriving DecidableEq, Repr

/-- The step context `step_context` (`custom_runner.py`): a transient
insertion-ordered dict carrying previous steps' outputs. -/
abbrev StepContext := List (String × Value)

/-- Python `s.startswith(pre)`: `pre` is a prefix of `s`, on the character
sequences of the two strings. -/
def pyStartsWith (s pre : String) : Bool :=
  pre.data.isPrefixOf s.data

/-- The markup heuristic of `_execute_step`:
`isinstance(value, str) and value.startswith("<")`. -/
def isMarkup (v : Value) : Bool :=
  match v with
  | Value.vstr s => pyStartsWith s "<"
  | _ => false

/-- Per-tool invocation counters, threading the statefulness of the external
tool callables through the run. -/
abbrev Invocations := String → Nat

/-- Bump the invocation counter of one tool. -/
def bumpInv (invs : Invocations) (name : String) : Invocations :=
  fun n => if n = name then invs n + 1 else invs n

/-- Argument building inside `CustomRunner._execute_step` (lines 158–168):
start from a copy of the step's declared `args`; when the tool is `extract`
and no `html` argument is present, iterate the context in insertion order
and inject the first string value starting with `<` as `html` (the loop
`break`s at the first match). -/
def buildArgs (step : PlanStep) (context : StepContext) : Args :=
  if step.tool = "extract" ∧ ¬ hasKey step.args "html" then
    match context.find? (fun kv => isMarkup kv.2) with
    | some kv => dictSet step.args "html" kv.2
    | none => step.args
  else step.args

/-- `CustomRunner._execute_step` (`custom_runner.py` lines 140–179): resolve
the tool from the registry (an unknown name raises
`RuntimeError("Tool not available: ...")`), build the arguments, and run the
call under the step timeout; a timeout raises
`RuntimeError(f"Step {step.step_id} timed out after {timeout} seconds")` and
a tool exception is re-raised as
`RuntimeError(f"Tool execution failed: {e}")`.  Returns the raised message
or the output, together with the updated invocation counters (the counter is
bumped exactly when the tool callable is actually submitted). -/
def executeStep (cfg : OrchestratorConfig) (reg : ToolRegistry) (step : PlanStep)
    (context : StepContext) (invs : Invocations) : Except String Value × Invocations :=
  match getTool reg step.tool with
  | none =>
      (Except.error ("Tool not available: Tool '" ++ step.tool ++ "' not found."), invs)
  | some tool_func =>
      let args := buildArgs step context
      match tool_func (invs step.tool) args with
      | ToolOutcome.ok output => (Except.ok output, bumpInv invs step.tool)
      | ToolOutcome.exn e =>
          (Except.error ("Tool execution failed: " ++ e), bumpInv invs step.tool)
      | ToolOutcome.timeout =>
          (Except.error ("Step " ++ toString step.step_id ++ " timed out after "
            ++ toString cfg.step_timeout ++ " seconds"), bumpInv invs step.tool)

/-- `if step.retry and step_result.retry_count < step.retry:`
(`custom_runner.py` line 96), with Python truthiness on the
`Optional[int]`. -/
def retryCond (retry : Option Int) (retry_count : Nat) : Bool :=
  match retry with
  | none => false
  | some r => r ≠ 0 ∧ (retry_count : Int) < r

/-- `if step.requires_human:` (`custom_runner.py` line 115), with Python
truthiness on the `Optional[bool]`. -/
def humanTruthy (requires_human : Option Bool) : Bool :=
  match requires_human with
  | none => false
  | some b => b

/-- Fate of one executed step: either the step succeeded and the loop
continues with its output, or the step terminated the run with a final step
record, an overall status and an overall error message. -/
inductive StepFate where
  | next (output : Value) (sr : ExecutionStepResult) : StepFate
  | halted (sr : ExecutionStepResult) (overall : Status) (msg : String) : StepFate
deriving Repr

/-- The step record carried by a fate (the `ExecutionStepResult` the runner
appended for the step, in its final state). -/
def StepFate.record : StepFate → ExecutionStepResult
  | StepFate.next _ sr => sr
  | StepFate.halted sr _ _ => sr

/-- The failure tail of the per-step loop (`custom_runner.py` lines 115–132):
once the attempts are exhausted with message `error_msg`, a step flagged
`requires_human` is marked `paused` and pauses the whole run, otherwise the
step is marked `error` and the run fails. -/
def failStep (step : PlanStep) (sr : ExecutionStepResult) (error_msg : String) : StepFate :=
  if humanTruthy step.requires_human then
    StepFate.halted
      (sr.mark_finished Status.paused Value.vnone ("Human intervention required: " ++ error_msg))
      Status.paused
      ("Step " ++ toString step.step_id ++ " requires human intervention")
  else
    StepFate.halted
      (sr.mark_finished Status.error Value.vnone error_msg)
      Status.error
      ("Step " ++ toString step.step_id ++ " failed: " ++ error_msg)

/-- One iteration of the step loop of `CustomRunner.execute_plan`
(lines 68–132): run the step; on success mark it `ok`; on failure make at
most one retry attempt when `step.retry and retry_count < step.retry`
(incrementing `retry_count` and, on a second failure, wrapping the message
as `"Step failed after {retry_count} retries: {retry_error}"`), then fall
through to `failStep`. -/
def runStep (cfg : OrchestratorConfig) (reg : ToolRegistry) (step : PlanStep)
    (context : StepContext) (invs : Invocations) : StepFate × Invocations :=
  let sr0 : ExecutionStepResult :=
    { step_id := step.step_id, status := Status.running, output := Value.vnone
      error_message := none, retry_count := 0 }
  match executeStep cfg reg step context invs with
  | (Except.ok output, invs1) =>
      (StepFate.next output (sr0.mark_finished Status.ok output ""), invs1)
  | (Except.error e, invs1) =>
      if retryCond step.retry sr0.retry_count then
        let sr1 := { sr0 with retry_count := sr0.retry_count + 1 }
        match executeStep cfg reg step context invs1 with
        | (Except.ok output, invs2) =>
            (StepFate.next output (sr1.mark_finished Status.ok output ""), invs2)
        | (Except.error e2, invs2) =>
            (failStep step sr1
              ("Step failed after " ++ toString sr1.retry_count ++ " retries: " ++ e2), invs2)
      else
        (failStep step sr0 e, invs1)

/-- The step loop of `CustomRunner.execute_plan` over the validated steps:
on success the output is stored in the context under
`step_<id>_output` and the loop continues; a halted step ends the run with
its overall status and message, leaving the remaining steps unattempted.
Returns the step records in order together with the final overall status and
message (`""` meaning the `mark_finished("ok")` call with no message). -/
def runSteps (cfg : OrchestratorConfig) (reg : ToolRegistry) :
    List PlanStep → StepContext → Invocations →
    List ExecutionStepResult × Status × String
  | [], _, _ => ([], Status.ok, "")
  | step :: rest, context, invs =>
      match runStep cfg reg step context invs with
      | (StepFate.next output sr, invs1) =>
          let context1 :=
            dictSet context ("step_" ++ toString step.step_id ++ "_output") output
          let tail := runSteps cfg reg rest context1 invs1
          (sr :: tail.1, tail.2)
      | (StepFate.halted sr overall msg, _) =>
          ([sr], overall, msg)

/-- `CustomRunner.execute_plan` (`custom_runner.py` lines 27–138): create the
`running` result, validate the raw steps (a validation failure marks the
result `error` with `"Invalid plan format: {e}"` and returns it before any
execution), then run the step loop with an empty context and mark the result
with the loop's final status and message. -/
def executePlan (cfg : OrchestratorConfig) (reg : ToolRegistry)
    (plan_steps : List PlanStep) (task_id : String) (session_id : Option String) :
    ExecutionResult :=
  let result : ExecutionResult :=
    { task_id := task_id, status := Status.running, steps := []
      error_message := none, session_id := session_id }
  match validatePlan plan_steps with
  | Except.error e =>
      result.mark_finished Status.error ("Invalid plan format: " ++ e)
  | Except.ok validated =>
      let run := runSteps cfg reg validated [] (fun _ => 0)
      ExecutionResult.mark_finished { result with steps := run.1 } run.2.1 run.2.2

/-- The public facade `execute_plan` (`executor.py` lines 47–110) on the
native-runner path (`LANGCHAIN_ENABLED` false, or the LangChain import
failing and falling back): an empty plan raises
`ValueError("Plan cannot be empty")` before any runner is obtained; otherwise
a task id is taken from the caller or generated (`genId` stands for the
`uuid4` hex fragment, an external effect) and the plan is handed to
`CustomRunner.execute_plan`.  Result persistence (`save_results`) is an
external I/O collaborator and is omitted. -/
def executeFacade (cfg : OrchestratorConfig) (reg : ToolRegistry)
    (plan : List PlanStep) (session_id : Option String) (task_id : Option String)
    (genId : String) : Except String ExecutionResult :=
  if plan.isEmpty then Except.error "Plan cannot be empty"
  else
    let tid := match task_id with
      | some t => t
      | none => "task_" ++ genId
    Except.ok (executePlan cfg reg plan tid session_id)

/-! ## Concrete fixtures

Small concrete tool behaviors and plans used by closed evaluations
(counterexamples, code-bug evaluations and witnesses). -/

/-- A default-flavoured configuration: 60-second step timeout, the unused
`max_retries` default 3 (`config.py` defaults). -/
def cfg0 : OrchestratorConfig := { step_timeout := 60, max_retries := 3 }

/-- A stateful tool that fails on its first two invocations and succeeds on
the third. -/
def failsTwice : ToolFn := fun i _ =>
  if i < 2 then ToolOutcome.exn "boom" else ToolOutcome.ok (Value.vstr "done")

/-- A stateful tool that fails on its first invocation and succeeds on the
second. -/
def failsOnce : ToolFn := fun i _ =>
  if i < 1 then ToolOutcome.exn "boom" else ToolOutcome.ok (Value.vstr "done")

/-- A tool that always fails. -/
def alwaysFails : ToolFn := fun _ _ => ToolOutcome.exn "boom"

/-- A tool that always succeeds with an opaque (non-markup) output. -/
def alwaysOk : ToolFn := fun _ _ => ToolOutcome.ok (Value.vstr "out")

/-- A `search` step with the given retry budget. -/
def searchStep (r : Int) : PlanStep :=
  { step_id := 1, tool := "search", args := [("query", Value.vstr "q")]
    reason := none, confidence := none, retry := some r, requires_human := some false }

/-- An `open` tool whose first invocation returns the markup string `s1` and
whose later invocations return `s2`. -/
def openSeq (s1 s2 : String) : ToolFn := fun i _ =>
  ToolOutcome.ok (Value.vstr (if i = 0 then s1 else s2))

/-- An `extract` tool that echoes back the `html` argument it was called
with (so the runs below can observe which value the runner injected). -/
def echoExtract : ToolFn := fun _ args =>
  ToolOutcome.ok
    (match args.find? (fun kv => kv.1 = "html") with
     | some kv => kv.2
     | none => Value.vnone)

/-- An `open` step with the given id and url. -/
def openStep (id : Int) (url : String) : PlanStep :=
  { step_id := id, tool := "open", args := [("url", Value.vstr url)]
    reason := none, confidence := none, retry := some 0, requires_human := some false }

/-- An `extract` step (selector only, no `html` argument) with the given id. -/
def extractStep (id : Int) : PlanStep :=
  { step_id := id, tool := "extract", args := [("selector", Value.vstr "p")]
    reason := none, confidence := none, retry := some 0, requires_human := some false }

/-- A tool that behaves as `o0` on its first invocation and as `o1` on every
later one (two invocations is the most a single step can make). -/
def twoShot (o0 o1 : ToolOutcome) : ToolFn := fun i _ =>
  if i = 0 then o0 else o1

/-- Replace a timed-out attempt by an ordinary raised exception with message
`m`; other outcomes are unchanged.  Used to compare the runner's treatment
of timeouts with its treatment of ordinary tool errors. -/
def timeoutToExn (m : String) : ToolOutcome → ToolOutcome
  | ToolOutcome.timeout => ToolOutcome.exn m
  | o => o

/-- A `search` step with arbitrary query value, retry budget and
`requires_human` flag. -/
def searchStepFull (q : Value) (r : Option Int) (rh : Option Bool) : PlanStep :=
  { step_id := 1, tool := "search", args := [("query", q)]
    reason := none, confidence := none, retry := r, requires_human := rh }

/-! ## General lemmas -/

theorem mark_finished_status (r : ExecutionStepResult) (st : Status) (o : Value) (e : String) :
    (r.mark_finished st o e).status = st := rfl

theorem mark_finished_retry_count (r : ExecutionStepResult) (st : Status) (o : Value)
    (e : String) : (r.mark_finished st o e).retry_count = r.retry_count := rfl

theorem result_mark_finished_steps (r : ExecutionResult) (st : Status) (e : String) :
    (r.mark_finished st e).steps = r.steps := rfl

theorem result_mark_finished_status (r : ExecutionResult) (st : Status) (e : String) :
    (r.mark_finished st e).status = st := rfl

/-- A string with a non-empty left part is non-empty. -/
theorem ne_empty_left (p q : String) (h : p ≠ "") : p ++ q ≠ "" := by
  intro hpq
  apply h
  apply String.ext
  have h2 := congrArg String.data hpq
  rw [String.data_append] at h2
  have h3 := (List.append_eq_nil.mp h2).1
  simpa using h3

/-- The step record of a `failStep` fate keeps the retry count of the record
it was given. -/
theorem failStep_record_retry_count (step : PlanStep) (sr : ExecutionStepResult)
    (msg : String) : (failStep step sr msg).record.retry_count = sr.retry_count := by
  unfold failStep
  by_cases h : humanTruthy step.requires_human <;>
    simp [h, StepFate.record, ExecutionStepResult.mark_finished]

/-- Every step record produced by one loop iteration has consumed at most
one retry. -/
theorem runStep_record_retry_le_one (cfg : OrchestratorConfig) (reg : ToolRegistry)
    (step : PlanStep) (ctx : StepContext) (invs : Invocations) :
    ((runStep cfg reg step ctx invs).1.record).retry_count ≤ 1 := by
  unfold runStep
  cases h1 : executeStep cfg reg step ctx invs with
  | mk res1 invs1 =>
    cases res1 with
    | ok output => simp [StepFate.record, ExecutionStepResult.mark_finished]
    | error e =>
      by_cases hr : retryCond step.retry 0 = true
      · simp only [hr, if_true]
        cases h2 : executeStep cfg reg step ctx invs1 with
        | mk res2 invs2 =>
          cases res2 with
          | ok output => simp [StepFate.record, ExecutionStepResult.mark_finished]
          | error e2 => simp [failStep_record_retry_count]
      · simp only [hr, if_false]
        simp [failStep_record_retry_count]

/-- Every step record in the loop's output has consumed at most one retry. -/
theorem runSteps_retry_le_one (cfg : OrchestratorConfig) (reg : ToolRegistry) :
    ∀ (steps : List PlanStep) (ctx : StepContext) (invs : Invocations)
      (sr : ExecutionStepResult), sr ∈ (runSteps cfg reg steps ctx invs).1 →
      sr.retry_count ≤ 1 := by
  intro steps
  induction steps with
  | nil => intro ctx invs sr h; simp [runSteps] at h
  | cons step rest ih =>
    intro ctx invs sr h
    rw [runSteps] at h
    cases hrs : runStep cfg reg step ctx invs with
    | mk fate invs1 =>
      rw [hrs] at h
      cases fate with
      | next output sr1 =>
        simp only [List.mem_cons] at h
        rcases h with h | h
        · subst h
          have h2 := runStep_record_retry_le_one cfg reg step ctx invs
          rw [hrs] at h2
          simpa [StepFate.record] using h2
        · exact ih _ _ _ h
      | halted sr1 overall msg =>
        simp only [List.mem_singleton] at h
        subst h
        have h2 := runStep_record_retry_le_one cfg reg step ctx invs
        rw [hrs] at h2
        simpa [StepFate.record] using h2

/-- `ExecutionResult.mark_finished` stores a truthy (non-empty) message. -/
theorem result_mark_finished_msg (r : ExecutionResult) (st : Status) (e : String)
    (h : e ≠ "") : (r.mark_finished st e).error_message = some e := by
  unfold ExecutionResult.mark_finished
  dsimp only
  rw [if_pos h]

/-- A successful loop iteration's record is marked `ok`. -/
theorem runStep_next_status (cfg : OrchestratorConfig) (reg : ToolRegistry) (step : PlanStep)
    (ctx : StepContext) (invs : Invocations) (output : Value) (sr : ExecutionStepResult)
    (invs1 : Invocations)
    (h : runStep cfg reg step ctx invs = (StepFate.next output sr, invs1)) :
    sr.status = Status.ok := by
  unfold runStep at h
  cases h1 : executeStep cfg reg step ctx invs with
  | mk res1 i1 =>
    rw [h1] at h
    cases res1 with
    | ok o =>
      simp only [Prod.mk.injEq, StepFate.next.injEq] at h
      rw [← h.1.2, mark_finished_status]
    | error e =>
      by_cases hr : retryCond step.retry 0 = true
      · simp only [hr, if_true] at h
        cases h2 : executeStep cfg reg step ctx i1 with
        | mk res2 i2 =>
          rw [h2] at h
          cases res2 with
          | ok o =>
            simp only [Prod.mk.injEq, StepFate.next.injEq] at h
            rw [← h.1.2, mark_finished_status]
          | error e2 =>
            exfalso
            unfold failStep at h
            by_cases hh : humanTruthy step.requires_human = true <;> simp [hh] at h
      · simp only [hr, if_false] at h
        exfalso
        unfold failStep at h
        by_cases hh : humanTruthy step.requires_human = true <;> simp [hh] at h

/-- A halted fate produced by `failStep` carries overall status `error` or
`paused` and a non-empty overall message. -/
theorem failStep_halted (step : PlanStep) (sr : ExecutionStepResult) (msg : String)
    (sr2 : ExecutionStepResult) (overall : Status) (msg2 : String)
    (h : failStep step sr msg = StepFate.halted sr2 overall msg2) :
    (overall = Status.error ∨ overall = Status.paused) ∧ msg2 ≠ "" := by
  unfold failStep at h
  by_cases hh : humanTruthy step.requires_human = true
  · rw [if_pos hh] at h
    simp only [StepFate.halted.injEq] at h
    refine ⟨Or.inr h.2.1.symm, ?_⟩
    rw [← h.2.2]
    exact ne_empty_left _ _ (ne_empty_left "Step " _ (by decide))
  · rw [if_neg hh] at h
    simp only [StepFate.halted.injEq] at h
    refine ⟨Or.inl h.2.1.symm, ?_⟩
    rw [← h.2.2]
    exact ne_empty_left _ _ (ne_empty_left "Step " _ (by decide))

/-- A halted loop iteration carries overall status `error` or `paused` and a
non-empty overall message. -/
theorem runStep_halted_final (cfg : OrchestratorConfig) (reg : ToolRegistry) (step : PlanStep)
    (ctx : StepContext) (invs : Invocations) (sr : ExecutionStepResult) (overall : Status)
    (msg : String) (invs1 : Invocations)
    (h : runStep cfg reg step ctx invs = (StepFate.halted sr overall msg, invs1)) :
    (overall = Status.error ∨ overall = Status.paused) ∧ msg ≠ "" := by
  unfold runStep at h
  cases h1 : executeStep cfg reg step ctx invs with
  | mk res1 i1 =>
    rw [h1] at h
    cases res1 with
    | ok o => simp at h
    | error e =>
      dsimp only at h
      by_cases hr : retryCond step.retry 0 = true
      · rw [if_pos hr] at h
        cases h2 : executeStep cfg reg step ctx i1 with
        | mk res2 i2 =>
          rw [h2] at h
          cases res2 with
          | ok o => simp at h
          | error e2 =>
            simp only [Prod.mk.injEq] at h
            exact failStep_halted _ _ _ _ _ _ h.1
      · rw [if_neg hr] at h
        simp only [Prod.mk.injEq] at h
        exact failStep_halted _ _ _ _ _ _ h.1

/-- Every step record in the loop's output except possibly the last is
marked `ok`. -/
theorem runSteps_dropLast_ok (cfg : OrchestratorConfig) (reg : ToolRegistry) :
    ∀ (steps : List PlanStep) (ctx : StepContext) (invs : Invocations)
      (sr : ExecutionStepResult), sr ∈ ((runSteps cfg reg steps ctx invs).1).dropLast →
      sr.status = Status.ok := by
  intro steps
  induction steps with
  | nil => intro ctx invs sr h; simp [runSteps] at h
  | cons step rest ih =>
    intro ctx invs sr h
    rw [runSteps] at h
    cases hrs : runStep cfg reg step ctx invs with
    | mk fate invs1 =>
      rw [hrs] at h
      cases fate with
      | next output sr1 =>
        simp only at h
        cases htail : (runSteps cfg reg rest
            (dictSet ctx ("step_" ++ toString step.step_id ++ "_output") output) invs1).1 with
        | nil => rw [htail] at h; simp at h
        | cons b t =>
          rw [htail] at h
          rw [List.dropLast_cons₂] at h
          rcases List.mem_cons.mp h with h | h
          · subst h; exact runStep_next_status cfg reg step ctx invs output sr invs1 hrs
          · apply ih (dictSet ctx ("step_" ++ toString step.step_id ++ "_output") output) invs1
            rw [htail]
            exact h
      | halted sr1 overall msg => simp at h

/-- The loop's final overall status is `ok` with no message, or `error` or
`paused` with a non-empty message. -/
theorem runSteps_terminal (cfg : OrchestratorConfig) (reg : ToolRegistry) :
    ∀ (steps : List PlanStep) (ctx : StepContext) (invs : Invocations),
      ((runSteps cfg reg steps ctx invs).2.1 = Status.ok ∧
        (runSteps cfg reg steps ctx invs).2.2 = "") ∨
      (((runSteps cfg reg steps ctx invs).2.1 = Status.error ∨
          (runSteps cfg reg steps ctx invs).2.1 = Status.paused) ∧
        (runSteps cfg reg steps ctx invs).2.2 ≠ "") := by
  intro steps
  induction steps with
  | nil => intro ctx invs; left; simp [runSteps]
  | cons step rest ih =>
    intro ctx invs
    simp only [runSteps]
    cases hrs : runStep cfg reg step ctx invs with
    | mk fate invs1 =>
      cases fate with
      | next output sr1 => simpa using ih _ _
      | halted sr1 overall msg =>
        have h2 := runStep_halted_final cfg reg step ctx invs sr1 overall msg invs1 hrs
        right
        simpa using h2

/-- Every step record of an executed plan except possibly the last is
marked `ok`. -/
theorem executePlan_dropLast_ok (cfg : OrchestratorConfig) (reg : ToolRegistry)
    (steps : List PlanStep) (tid : String) (sid : Option String) (sr : ExecutionStepResult)
    (h : sr ∈ ((executePlan cfg reg steps tid sid).steps).dropLast) :
    sr.status = Status.ok := by
  unfold executePlan at h
  cases hv : validatePlan steps with
  | error e => rw [hv] at h; simp [ExecutionResult.mark_finished] at h
  | ok validated =>
    rw [hv] at h
    simp only [result_mark_finished_steps] at h
    exact runSteps_dropLast_ok cfg reg validated [] (fun _ => 0) sr h

/-- Appending on the right keeps a known head character. -/
theorem append_data_head (p x : String) (c : Char) (h : p.data.head? = some c) :
    (p ++ x).data.head? = some c := by
  rw [String.data_append]
  cases hp : p.data with
  | nil => rw [hp] at h; exact Option.noConfusion h
  | cons a l =>
    rw [hp] at h
    simp only [List.head?_cons, Option.some.injEq] at h
    subst h
    simp

/-- Strings with different head characters differ. -/
theorem string_head_ne (s t : String) (c d : Char) (hc : s.data.head? = some c)
    (hd : t.data.head? = some d) (hcd : c ≠ d) : s ≠ t := by
  intro he
  rw [he, hd] at hc
  exact hcd (Option.some.injEq .. ▸ hc).symm

/-- `'html'` is in no tool's required-argument list, so the `arg != 'html'`
escape in `validate_tool_args` never fires. -/
theorem html_not_required (tool : String) : ¬ "html" ∈ requiredArgs tool := by
  unfold requiredArgs
  split_ifs <;> decide

/-- A step naming a tool outside the schema's literal set fails
validation. -/
theorem validateStep_error_unknown_tool (s : PlanStep)
    (h : ¬ allowedTools.contains s.tool = true) :
    ∃ e, validateStep s = Except.error e := by
  unfold validateStep
  rw [if_pos h]
  exact ⟨_, rfl⟩

/-- A step missing one of its tool's required arguments fails validation. -/
theorem validateStep_error_missing_arg (s : PlanStep) (a : String)
    (ha : a ∈ requiredArgs s.tool) (hm : ¬ hasKey s.args a = true) :
    ∃ e, validateStep s = Except.error e := by
  unfold validateStep
  by_cases ht : ¬ allowedTools.contains s.tool = true
  · rw [if_pos ht]; exact ⟨_, rfl⟩
  · rw [if_neg ht]
    cases hf : (requiredArgs s.tool).find?
        (fun arg => decide (¬ hasKey s.args arg = true ∧ arg ≠ "html")) with
    | some arg0 => exact ⟨_, rfl⟩
    | none =>
      exfalso
      have hne : a ≠ "html" := fun he => html_not_required s.tool (he ▸ ha)
      have hcontra := List.find?_eq_none.mp hf a ha
      simp only [decide_eq_true_eq] at hcontra
      exact hcontra ⟨hm, hne⟩

/-- A step whose confidence lies outside `[0, 1]` fails validation. -/
theorem validateStep_error_bad_confidence (s : PlanStep) (c : Rat)
    (hc : s.confidence = some c) (hout : c < 0 ∨ 1 < c) :
    ∃ e, validateStep s = Except.error e := by
  unfold validateStep
  by_cases ht : ¬ allowedTools.contains s.tool = true
  · rw [if_pos ht]; exact ⟨_, rfl⟩
  · rw [if_neg ht]
    cases hf : (requiredArgs s.tool).find?
        (fun arg => decide (¬ hasKey s.args arg = true ∧ arg ≠ "html")) with
    | some arg0 => exact ⟨_, rfl⟩
    | none =>
      dsimp only
      rw [hc]
      dsimp only
      by_cases hneg : c < 0
      · rw [if_pos hneg]; exact ⟨_, rfl⟩
      · rw [if_neg hneg, if_pos (hout.resolve_left hneg)]
        exact ⟨_, rfl⟩

/-- A plan containing a step that fails validation fails plan validation
(at that step or at an earlier invalid one). -/
theorem validatePlan_error_of_step_error (steps : List PlanStep) (s : PlanStep)
    (hs : s ∈ steps) (he : ∃ e, validateStep s = Except.error e) :
    ∃ e2, validatePlan steps = Except.error e2 := by
  induction steps with
  | nil => simp at hs
  | cons a rest ih =>
    rcases List.mem_cons.mp hs with h | h
    · subst h
      obtain ⟨e, he⟩ := he
      exact ⟨e, by unfold validatePlan; rw [he]⟩
    · cases ha : validateStep a with
      | error e => exact ⟨e, by unfold validatePlan; rw [ha]⟩
      | ok v =>
        obtain ⟨e2, h2⟩ := ih h
        exact ⟨e2, by unfold validatePlan; rw [ha, h2]⟩

/-- A plan whose validation fails is rejected before execution: the result
is `error` with the `"Invalid plan format"` message and no step record. -/
theorem executePlan_of_validate_error (cfg : OrchestratorConfig) (reg : ToolRegistry)
    (steps : List PlanStep) (tid : String) (sid : Option String) (e : String)
    (h : validatePlan steps = Except.error e) :
    executePlan cfg reg steps tid sid =
      { task_id := tid, status := Status.error, steps := []
        error_message := some ("Invalid plan format: " ++ e), session_id := sid } := by
  unfold executePlan
  rw [h]
  unfold ExecutionResult.mark_finished
  dsimp only
  rw [if_pos (ne_empty_left "Invalid plan format: " e (by decide))]

/-! ## Theorems -/

/-- Claim C9: submitting an empty plan to the public execution facade raises
the validation error `"Plan cannot be empty"` immediately; the error branch
contains no `ExecutionResult` and, structurally, `executeFacade` only
reaches the runner in its other branch, so no runner is invoked and no
`ExecutionResult` is ever created. -/
theorem empty_plan_rejected (cfg : OrchestratorConfig) (reg : ToolRegistry)
    (sid : Option String) (tid : Option String) (genId : String) :
    executeFacade cfg reg [] sid tid genId = Except.error "Plan cannot be empty" := rfl

/-- Claim C1 (code-bug evaluation): a step with retry budget 2 run against a
tool that fails on exactly its first two invocations and succeeds on the
third ends in step status `error` with `retry_count = 1` — the runner makes
a single retry attempt and never reaches the third, succeeding invocation,
contradicting the specified retry bound (status `ok` with
`retry_count = 2`). -/
theorem retry_budget_not_honored :
    executePlan cfg0 [("search", failsTwice)] [searchStep 2] "t" none =
      { task_id := "t", status := Status.error
        steps := [{ step_id := 1, status := Status.error, output := Value.vnone
                    error_message := some "Step failed after 1 retries: Tool execution failed: boom"
                    retry_count := 1 }]
        error_message := some "Step 1 failed: Step failed after 1 retries: Tool execution failed: boom"
        session_id := none } := by decide

/-- Claim C3: fail-stop — in every executed plan's result, a step record
with terminal status `error` or `paused` is the last one: no step record for
any later step appears, the remaining plan steps are never attempted. -/
theorem fail_stop (cfg : OrchestratorConfig) (reg : ToolRegistry) (steps : List PlanStep)
    (tid : String) (sid : Option String) (i : Nat) (sr : ExecutionStepResult)
    (h1 : (executePlan cfg reg steps tid sid).steps[i]? = some sr)
    (h2 : sr.status = Status.error ∨ sr.status = Status.paused) :
    i + 1 = (executePlan cfg reg steps tid sid).steps.length := by
  obtain ⟨hi, hget⟩ := List.getElem?_eq_some.mp h1
  by_contra hne
  have hlt : i < (executePlan cfg reg steps tid sid).steps.length - 1 := by omega
  have hdrop : i < ((executePlan cfg reg steps tid sid).steps).dropLast.length := by
    rw [List.length_dropLast]; exact hlt
  have heq : ((executePlan cfg reg steps tid sid).steps).dropLast[i] =
      (executePlan cfg reg steps tid sid).steps[i] := List.getElem_dropLast ..
  have hmem : ((executePlan cfg reg steps tid sid).steps).dropLast[i] ∈
      ((executePlan cfg reg steps tid sid).steps).dropLast := List.getElem_mem ..
  rw [heq, hget] at hmem
  have hok := executePlan_dropLast_ok cfg reg steps tid sid sr hmem
  rcases h2 with h2 | h2 <;> rw [hok] at h2 <;> exact Status.noConfusion h2

/-- Witness for C3: a one-step plan whose step fails terminally — the
`error` record at position 0 is the last one. -/
theorem fail_stop_witness :
    0 + 1 = (executePlan cfg0 [("search", alwaysFails)] [searchStep 0] "t" none).steps.length :=
  fail_stop cfg0 [("search", alwaysFails)] [searchStep 0] "t" none 0
    { step_id := 1, status := Status.error, output := Value.vnone
      error_message := some "Tool execution failed: boom", retry_count := 0 }
    (by decide) (Or.inl (by decide))

/-- Claim C4: every plan run terminates with overall status `ok`, `error` or
`paused` (never `running`), and in the `error` and `paused` cases the
result's `error_message` is non-null.  `executePlan` is a total function:
every tool outcome, including a raised exception (`ToolOutcome.exn`), is
captured and converted into a step result rather than escaping. -/
theorem plan_run_terminal (cfg : OrchestratorConfig) (reg : ToolRegistry)
    (steps : List PlanStep) (tid : String) (sid : Option String) :
    (executePlan cfg reg steps tid sid).status = Status.ok ∨
    (((executePlan cfg reg steps tid sid).status = Status.error ∨
        (executePlan cfg reg steps tid sid).status = Status.paused) ∧
      ((executePlan cfg reg steps tid sid).error_message).isSome = true) := by
  unfold executePlan
  cases hv : validatePlan steps with
  | error e =>
    dsimp only
    right
    refine ⟨Or.inl (result_mark_finished_status _ _ _), ?_⟩
    rw [result_mark_finished_msg _ _ _ (ne_empty_left _ _ (by decide))]
    rfl
  | ok validated =>
    dsimp only
    rcases runSteps_terminal cfg reg validated [] (fun _ => 0) with ⟨h1, h2⟩ | ⟨h1, h2⟩
    · left
      rw [result_mark_finished_status]
      exact h1
    · right
      refine ⟨?_, ?_⟩
      · rcases h1 with h1 | h1
        · left; rw [result_mark_finished_status]; exact h1
        · right; rw [result_mark_finished_status]; exact h1
      · rw [result_mark_finished_msg _ _ _ h2]
        rfl

/-- Claim C10: every step record in every result produced by the native
runner has `retry_count ≤ 1` — the runner makes at most one retry attempt
per step, whatever the declared retry budget. -/
theorem retry_count_at_most_one (cfg : OrchestratorConfig) (reg : ToolRegistry)
    (steps : List PlanStep) (tid : String) (sid : Option String) (sr : ExecutionStepResult)
    (h : sr ∈ (executePlan cfg reg steps tid sid).steps) : sr.retry_count ≤ 1 := by
  unfold executePlan at h
  cases hv : validatePlan steps with
  | error e =>
    rw [hv] at h
    simp [ExecutionResult.mark_finished] at h
  | ok validated =>
    rw [hv] at h
    simp only [result_mark_finished_steps] at h
    exact runSteps_retry_le_one cfg reg validated [] (fun _ => 0) sr h

/-- Witness for C10: the step record of a run that did retry (budget 3, tool
failing twice) has `retry_count = 1 ≤ 1`. -/
theorem retry_count_at_most_one_witness :
    ({ step_id := 1, status := Status.error, output := Value.vnone
       error_message := some "Step failed after 1 retries: Tool execution failed: boom"
       retry_count := 1 } : ExecutionStepResult).retry_count ≤ 1 :=
  retry_count_at_most_one cfg0 [("search", failsTwice)] [searchStep 3] "t" none _ (by decide)

/-- Claim C2 (amended): a raw plan containing a step that names an unknown
tool or omits a required argument of its declared tool is rejected before
any execution begins: the result is `error` with the
`"Invalid plan format"` message and an empty step list — no tool is
invoked, nothing is retried, and the rejection is surfaced to the caller as
the rejected-plan result.  (Step-id sequencing, by contrast, is not
validated; see the counterexample.) -/
theorem invalid_step_plan_rejected (cfg : OrchestratorConfig) (reg : ToolRegistry)
    (steps : List PlanStep) (tid : String) (sid : Option String)
    (h : ∃ s ∈ steps, ¬ allowedTools.contains s.tool = true ∨
          ∃ a ∈ requiredArgs s.tool, ¬ hasKey s.args a = true) :
    ∃ e, executePlan cfg reg steps tid sid =
      { task_id := tid, status := Status.error, steps := []
        error_message := some ("Invalid plan format: " ++ e), session_id := sid } := by
  obtain ⟨s, hs, hbad⟩ := h
  have herr : ∃ e, validateStep s = Except.error e := by
    rcases hbad with hb | ⟨a, ha, hm⟩
    · exact validateStep_error_unknown_tool s hb
    · exact validateStep_error_missing_arg s a ha hm
  obtain ⟨e2, h2⟩ := validatePlan_error_of_step_error steps s hs herr
  exact ⟨e2, executePlan_of_validate_error cfg reg steps tid sid e2 h2⟩

/-- Witness for C2 (amended): a plan naming the unknown tool `teleport` is
rejected with no step record. -/
theorem invalid_step_plan_rejected_witness :
    ∃ e, executePlan cfg0 [("search", alwaysOk)]
        [{ step_id := 1, tool := "teleport", args := [], reason := none
           confidence := none, retry := some 0, requires_human := some false }] "t" none =
      { task_id := "t", status := Status.error, steps := []
        error_message := some ("Invalid plan format: " ++ e), session_id := none } :=
  invalid_step_plan_rejected cfg0 [("search", alwaysOk)]
    [{ step_id := 1, tool := "teleport", args := [], reason := none
       confidence := none, retry := some 0, requires_human := some false }] "t" none
    (by decide)

/-- Claim C6 (amended): a step whose confidence lies outside `[0.0, 1.0]` is
not clamped — it causes the whole plan to be rejected at validation, with an
`error` result and no step executed. -/
theorem out_of_range_confidence_rejects (cfg : OrchestratorConfig) (reg : ToolRegistry)
    (steps : List PlanStep) (tid : String) (sid : Option String) (c : Rat)
    (h : ∃ s ∈ steps, s.confidence = some c ∧ (c < 0 ∨ 1 < c)) :
    ∃ e, executePlan cfg reg steps tid sid =
      { task_id := tid, status := Status.error, steps := []
        error_message := some ("Invalid plan format: " ++ e), session_id := sid } := by
  obtain ⟨s, hs, hc, hout⟩ := h
  obtain ⟨e2, h2⟩ := validatePlan_error_of_step_error steps s hs
    (validateStep_error_bad_confidence s c hc hout)
  exact ⟨e2, executePlan_of_validate_error cfg reg steps tid sid e2 h2⟩

/-- Witness for C6 (amended): confidence `2` gets the plan rejected. -/
theorem out_of_range_confidence_rejects_witness :
    ∃ e, executePlan cfg0 [("search", alwaysOk)]
        [{ step_id := 1, tool := "search", args := [("query", Value.vstr "q")]
           reason := none, confidence := some (2 : Rat), retry := some 0
           requires_human := some false }] "t" none =
      { task_id := "t", status := Status.error, steps := []
        error_message := some ("Invalid plan format: " ++ e), session_id := none } :=
  out_of_range_confidence_rejects cfg0 [("search", alwaysOk)]
    [{ step_id := 1, tool := "search", args := [("query", Value.vstr "q")]
       reason := none, confidence := some (2 : Rat), retry := some 0
       requires_human := some false }] "t" none (2 : Rat) (by decide)

/-- Claim C2 (counterexample): a one-step plan whose only step carries
`step_id = 7` — not the required sequence `1..1` — passes validation, is
executed, and its tool is invoked (the step result is `ok` with the tool's
output), so a plan violating the step-id invariant is not rejected. -/
theorem step_id_sequence_not_validated :
    executePlan cfg0 [("search", alwaysOk)]
        [{ step_id := 7, tool := "search", args := [("query", Value.vstr "q")]
           reason := none, confidence := none, retry := some 0, requires_human := some false }]
        "t" none =
      { task_id := "t", status := Status.ok
        steps := [{ step_id := 7, status := Status.ok, output := Value.vstr "out"
                    error_message := none, retry_count := 0 }]
        error_message := none, session_id := none } := by decide

/-- Claim C5 (counterexample): in a three-step plan `open, open, extract`
where the two `open` steps return the markup strings `"<page-one>"` then
`"<page-two>"`, the `extract` step (no `html` argument, echoing back the
`html` it receives) is given `"<page-one>"` — the oldest markup output in
the step context — although the most recent markup string output is
`"<page-two>"`. -/
theorem extract_injects_oldest_markup :
    (executePlan cfg0 [("open", openSeq "<page-one>" "<page-two>"), ("extract", echoExtract)]
        [openStep 1 "u1", openStep 2 "u2", extractStep 3] "t" none).steps.map
        (fun sr => sr.output) =
      [Value.vstr "<page-one>", Value.vstr "<page-two>", Value.vstr "<page-one>"] ∧
    Value.vstr "<page-one>" ≠ Value.vstr "<page-two>" := by decide

/-- Claim C5 (amended): when an `extract` step has no `html` argument, the
runner injects as `html` the first (earliest-inserted, i.e. oldest) string
output in the step context that starts with `<` — not the most recent.  In
particular, in a two-step plan `open, extract` the `extract` call receives
step 1's markup output as `html`; and in a three-step plan `open, open,
extract` where both opens return markup, `extract` receives the first
open's output even though the second's is more recent. -/
theorem extract_receives_first_markup (cfg : OrchestratorConfig) (s1 s2 : String)
    (tid : String) (sid : Option String)
    (h1 : pyStartsWith s1 "<" = true) (h2 : pyStartsWith s2 "<" = true) :
    ((executePlan cfg [("open", openSeq s1 s2), ("extract", echoExtract)]
        [openStep 1 "u1", extractStep 2] tid sid).steps.map (fun sr => sr.output) =
      [Value.vstr s1, Value.vstr s1]) ∧
    ((executePlan cfg [("open", openSeq s1 s2), ("extract", echoExtract)]
        [openStep 1 "u1", openStep 2 "u2", extractStep 3] tid sid).steps.map
        (fun sr => sr.output) =
      [Value.vstr s1, Value.vstr s2, Value.vstr s1]) := by
  have hne12 : ("step_" ++ toString (1 : Int) ++ "_output" =
      "step_" ++ toString (2 : Int) ++ "_output") = False := by decide
  have hne13 : ("step_" ++ toString (1 : Int) ++ "_output" =
      "step_" ++ toString (3 : Int) ++ "_output") = False := by decide
  have hne23 : ("step_" ++ toString (2 : Int) ++ "_output" =
      "step_" ++ toString (3 : Int) ++ "_output") = False := by decide
  constructor <;>
    simp [executePlan, validatePlan, validateStep, allowedTools, requiredArgs, hasKey,
      runSteps, runStep, executeStep, getTool, buildArgs, openStep, extractStep, openSeq,
      echoExtract, bumpInv, dictSet, isMarkup, h1, h2, hne12, hne13, hne23,
      ExecutionStepResult.mark_finished, ExecutionResult.mark_finished]

/-- Witness for C5 (amended): the scenario with markup outputs `"<a>"` and
`"<b>"`. -/
theorem extract_receives_first_markup_witness :
    ((executePlan cfg0 [("open", openSeq "<a>" "<b>"), ("extract", echoExtract)]
        [openStep 1 "u1", extractStep 2] "t" none).steps.map (fun sr => sr.output) =
      [Value.vstr "<a>", Value.vstr "<a>"]) ∧
    ((executePlan cfg0 [("open", openSeq "<a>" "<b>"), ("extract", echoExtract)]
        [openStep 1 "u1", openStep 2 "u2", extractStep 3] "t" none).steps.map
        (fun sr => sr.output) =
      [Value.vstr "<a>", Value.vstr "<b>", Value.vstr "<a>"]) :=
  extract_receives_first_markup cfg0 "<a>" "<b>" "t" none (by decide) (by decide)

/-- Claim C6 (counterexample): a step with confidence `2` (outside
`[0, 1]`) is not clamped and accepted — the plan is rejected at validation:
the run ends `error` with the `"Invalid plan format"` message and no step
result. -/
theorem out_of_range_confidence_not_clamped :
    executePlan cfg0 [("search", alwaysOk)]
        [{ step_id := 1, tool := "search", args := [("query", Value.vstr "q")]
           reason := none, confidence := some (2 : Rat), retry := some 0
           requires_human := some false }]
        "t" none =
      { task_id := "t", status := Status.error, steps := []
        error_message := some "Invalid plan format: ensure this value is less than or equal to 1.0"
        session_id := none } := by decide

/-- Claim C7: a tool call that exceeds the step time budget fails its
attempt with the message `"Step 1 timed out after {t} seconds"` — naming the
configured timeout in seconds and distinct from every ordinary tool error
message (those carry the `"Tool execution failed: "` prefix) — and the
failure receives exactly the same retry and `requires_human` treatment as an
ordinary tool error: replacing each timed-out attempt by a raised exception
leaves the overall status and every step record's status and retry count
unchanged, for every retry budget, `requires_human` flag and second-attempt
outcome. -/
theorem timeout_distinct_message_same_treatment (cfg : OrchestratorConfig) (q : Value)
    (tid : String) (sid : Option String) (r : Option Int) (rh : Option Bool)
    (o1 : ToolOutcome) (m0 m1 : String)
    (hv : validatePlan [searchStepFull q r rh] = Except.ok [searchStepFull q r rh]) :
    ((executePlan cfg [("search", twoShot ToolOutcome.timeout o1)]
        [searchStepFull q r rh] tid sid).status =
      (executePlan cfg [("search", twoShot (timeoutToExn m0 ToolOutcome.timeout)
          (timeoutToExn m1 o1))] [searchStepFull q r rh] tid sid).status) ∧
    ((executePlan cfg [("search", twoShot ToolOutcome.timeout o1)]
        [searchStepFull q r rh] tid sid).steps.map
        (fun sr => (sr.step_id, sr.status, sr.retry_count)) =
      (executePlan cfg [("search", twoShot (timeoutToExn m0 ToolOutcome.timeout)
          (timeoutToExn m1 o1))] [searchStepFull q r rh] tid sid).steps.map
        (fun sr => (sr.step_id, sr.status, sr.retry_count))) ∧
    ((executeStep cfg [("search", twoShot ToolOutcome.timeout o1)]
        (searchStepFull q r rh) [] (fun _ => 0)).1 =
      Except.error ("Step " ++ toString (1 : Int) ++ " timed out after "
        ++ toString cfg.step_timeout ++ " seconds")) ∧
    (∀ e2, ("Step " ++ toString (1 : Int) ++ " timed out after "
        ++ toString cfg.step_timeout ++ " seconds") ≠ "Tool execution failed: " ++ e2) := by
  refine ⟨?_, ?_, ?_, ?_⟩
  case refine_3 =>
    simp [executeStep, getTool, buildArgs, twoShot, searchStepFull, hasKey]
  case refine_4 =>
    intro e2
    exact string_head_ne _ _ 'S' 'T'
      (append_data_head _ _ _ (append_data_head _ _ _ (append_data_head _ _ _ (by decide))))
      (append_data_head _ _ _ (by decide)) (by decide)
  all_goals
    unfold executePlan
    rw [hv]
    simp only [runSteps]
    unfold runStep executeStep getTool buildArgs
    simp only [searchStepFull]
    by_cases hr : retryCond r 0 = true <;>
      cases o1 <;>
      by_cases hh : humanTruthy rh = true <;>
      simp [hr, hh, twoShot, timeoutToExn, bumpInv, failStep, hasKey,
        ExecutionStepResult.mark_finished, ExecutionResult.mark_finished]

/-- Witness for C7: retry budget 1, second attempt succeeding, no human
flag — both runs end `ok` with one retry, and the first attempt carries the
timeout message. -/
theorem timeout_distinct_message_same_treatment_witness :
    ((executePlan cfg0 [("search", twoShot ToolOutcome.timeout (ToolOutcome.ok (Value.vstr "done")))]
        [searchStepFull (Value.vstr "q") (some 1) (some false)] "t" none).status =
      (executePlan cfg0 [("search", twoShot (timeoutToExn "x" ToolOutcome.timeout)
          (timeoutToExn "y" (ToolOutcome.ok (Value.vstr "done"))))]
        [searchStepFull (Value.vstr "q") (some 1) (some false)] "t" none).status) ∧
    ((executePlan cfg0 [("search", twoShot ToolOutcome.timeout (ToolOutcome.ok (Value.vstr "done")))]
        [searchStepFull (Value.vstr "q") (some 1) (some false)] "t" none).steps.map
        (fun sr => (sr.step_id, sr.status, sr.retry_count)) =
      (executePlan cfg0 [("search", twoShot (timeoutToExn "x" ToolOutcome.timeout)
          (timeoutToExn "y" (ToolOutcome.ok (Value.vstr "done"))))]
        [searchStepFull (Value.vstr "q") (some 1) (some false)] "t" none).steps.map
        (fun sr => (sr.step_id, sr.status, sr.retry_count))) ∧
    ((executeStep cfg0 [("search", twoShot ToolOutcome.timeout (ToolOutcome.ok (Value.vstr "done")))]
        (searchStepFull (Value.vstr "q") (some 1) (some false)) [] (fun _ => 0)).1 =
      Except.error ("Step " ++ toString (1 : Int) ++ " timed out after "
        ++ toString cfg0.step_timeout ++ " seconds")) ∧
    (∀ e2, ("Step " ++ toString (1 : Int) ++ " timed out after "
        ++ toString cfg0.step_timeout ++ " seconds") ≠ "Tool execution failed: " ++ e2) :=
  timeout_distinct_message_same_treatment cfg0 (Value.vstr "q") "t" none (some 1) (some false)
    (ToolOutcome.ok (Value.vstr "done")) "x" "y" rfl

/-- Claim C8 (amended): a step whose tool name cannot be resolved in the
Tool Registry at execution time ends the run: the step is marked with the
fatal `Tool not available` failure (`paused` when `requires_human`,
otherwise `error`) and no later step runs — but the failure is not exempt
from retry: with a positive retry budget the runner makes one retry attempt
first (`retry_count = 1`), exactly as for any other tool error.  (With the
default registry this situation is unreachable: the schema's tool literal
set is registered in full.) -/
theorem unknown_tool_error_but_retried (cfg : OrchestratorConfig) (reg : ToolRegistry)
    (step : PlanStep) (rest : List PlanStep) (tid : String) (sid : Option String)
    (hreg : getTool reg step.tool = none)
    (hv : validatePlan (step :: rest) = Except.ok (step :: rest)) :
    ((executePlan cfg reg (step :: rest) tid sid).steps.map
        (fun sr => (sr.status, sr.retry_count)) =
      [((if humanTruthy step.requires_human then Status.paused else Status.error),
        if retryCond step.retry 0 then 1 else 0)]) ∧
    (executePlan cfg reg (step :: rest) tid sid).status =
      (if humanTruthy step.requires_human then Status.paused else Status.error) := by
  have hstep : ∀ ctx invs, executeStep cfg reg step ctx invs =
      (Except.error ("Tool not available: Tool '" ++ step.tool ++ "' not found."), invs) := by
    intro ctx invs
    unfold executeStep
    rw [hreg]
  unfold executePlan
  rw [hv]
  simp only [runSteps]
  unfold runStep
  rw [hstep]
  dsimp only
  by_cases hr : retryCond step.retry 0 = true
  · rw [if_pos hr, hstep]
    dsimp only
    unfold failStep
    by_cases hh : humanTruthy step.requires_human = true
    · rw [if_pos hh, if_pos hh, if_pos hr]
      constructor
      · simp [ExecutionResult.mark_finished, ExecutionStepResult.mark_finished]
      · simp [ExecutionResult.mark_finished]
    · rw [if_neg hh, if_neg hh, if_pos hr]
      constructor
      · simp [ExecutionResult.mark_finished, ExecutionStepResult.mark_finished]
      · simp [ExecutionResult.mark_finished]
  · rw [if_neg hr]
    unfold failStep
    by_cases hh : humanTruthy step.requires_human = true
    · rw [if_pos hh, if_pos hh, if_neg hr]
      constructor
      · simp [ExecutionResult.mark_finished, ExecutionStepResult.mark_finished]
      · simp [ExecutionResult.mark_finished]
    · rw [if_neg hh, if_neg hh, if_neg hr]
      constructor
      · simp [ExecutionResult.mark_finished, ExecutionStepResult.mark_finished]
      · simp [ExecutionResult.mark_finished]

/-- Witness for C8 (amended): empty registry, retry budget 3,
`requires_human` false — result `error` with one step record of
`retry_count = 1`. -/
theorem unknown_tool_error_but_retried_witness :
    ((executePlan cfg0 [] [searchStep 3] "t" none).steps.map
        (fun sr => (sr.status, sr.retry_count)) =
      [((if humanTruthy (searchStep 3).requires_human then Status.paused else Status.error),
        if retryCond (searchStep 3).retry 0 then 1 else 0)]) ∧
    (executePlan cfg0 [] [searchStep 3] "t" none).status =
      (if humanTruthy (searchStep 3).requires_human then Status.paused else Status.error) :=
  unknown_tool_error_but_retried cfg0 [] (searchStep 3) [] "t" none rfl rfl

/-- Claim C8 (counterexample): against a registry in which the step's tool
name does not resolve, a step with retry budget 3 is retried — the runner
makes a retry attempt (`retry_count = 1` in the step record, and the error
message is the post-retry `"Step failed after 1 retries"` wrapping) instead
of failing with no retry attempt. -/
theorem unknown_tool_is_retried :
    executePlan cfg0 [] [searchStep 3] "t" none =
      { task_id := "t", status := Status.error
        steps := [{ step_id := 1, status := Status.error, output := Value.vnone
                    error_message := some
                      "Step failed after 1 retries: Tool not available: Tool 'search' not found."
                    retry_count := 1 }]
        error_message := some
          "Step 1 failed: Step failed after 1 retries: Tool not available: Tool 'search' not found."
        session_id := none } := by decide

end Nexus
